import Mathlib

/-!
Shallow embedding of the NBA clutch comparison application (src/app.py).

The app has three pieces of logic:
  - get_player_id: resolve a player name to an id via a lookup collaborator
    (nba_api players.find_players_by_full_name), taking the first match;
  - get_career_clutch_stats: fetch a pre-aggregated clutch totals record for a
    fixed current season, falling back to the fixed 1976-77 season when the
    primary result set is empty, then extract per-game rates and percentages
    from the first row; the whole body runs under try/except, converting any
    raised exception into a dictionary with an error key;
  - the comparison step of the page script: abort when either player result
    carries an error key, otherwise display both summaries and compute
    better-scorer / better-impact labels and absolute differences.

Python floats are modelled as rationals; Python round(x, 1) is modelled as
round-half-to-even at one decimal; float division by zero is modelled as a
ZeroDivisionError value in an Except monad, mirroring the exception flow.
-/

namespace NBAClutch

attribute [local semireducible] Rat.mul Rat.add Rat.sub Rat.inv

/-- One row of the clutch totals dataframe returned by the
ClutchPlayerStats endpoint, with the columns read by the code. -/
structure ClutchTotals where
  GP : ℤ
  MIN : ℚ
  PTS : ℤ
  FG_PCT : ℚ
  FG3_PCT : ℚ
  FT_PCT : ℚ
  PLUS_MINUS : ℚ
  AST : ℤ
  REB : ℤ
  STL : ℤ
  BLK : ℤ
  TOV : ℤ
  deriving Repr, DecidableEq

/-- The stats dictionary built at lines 75-89 of src/app.py. -/
structure Stats where
  games_played : ℤ
  minutes : ℚ
  ppg : ℚ
  fg_pct : ℚ
  fg3_pct : ℚ
  ft_pct : ℚ
  plus_minus : ℚ
  total_points : ℤ
  assists : ℚ
  rebounds : ℚ
  steals : ℚ
  blocks : ℚ
  turnovers : ℚ
  deriving Repr, DecidableEq

/-- Python exceptions that can escape the body of get_career_clutch_stats:
a ZeroDivisionError from float division, or an exception raised by the
upstream fetch (transport or lookup failure). -/
inductive PyErr where
  | zeroDivisionError
  | apiError (msg : String)
  deriving Repr, DecidableEq

/-- Python str(e) for the exceptions modelled here. -/
def errString : PyErr → String
  | PyErr.zeroDivisionError => "float division by zero"
  | PyErr.apiError msg => msg

/-- Round-half-to-even to the nearest integer, the tie-break used by
Python round. -/
def roundHalfEven (q : ℚ) : ℤ :=
  let n := q.floor
  if q - n < 1/2 then n
  else if 1/2 < q - n then n + 1
  else if n % 2 = 0 then n else n + 1

/-- Python round(x, 1): round to one decimal place, ties to even. -/
def pyRound1 (q : ℚ) : ℚ := (roundHalfEven (q * 10) : ℚ) / 10

/-- Python float division: raises ZeroDivisionError on a zero denominator. -/
def fdiv (a b : ℚ) : Except PyErr ℚ :=
  if b = 0 then Except.error PyErr.zeroDivisionError else Except.ok (a / b)

/-- The stats-extraction step (lines 75-89 of src/app.py): build the stats
dictionary from the first row of the totals dataframe. Each per-game rate is
a float division by GP, which raises when GP is zero; minutes is the MIN
total rounded, not divided by GP, exactly as in the source. -/
def extractStats (r : ClutchTotals) : Except PyErr Stats := do
  let ppg ← fdiv (r.PTS : ℚ) (r.GP : ℚ)
  let ast ← fdiv (r.AST : ℚ) (r.GP : ℚ)
  let reb ← fdiv (r.REB : ℚ) (r.GP : ℚ)
  let stl ← fdiv (r.STL : ℚ) (r.GP : ℚ)
  let blk ← fdiv (r.BLK : ℚ) (r.GP : ℚ)
  let tov ← fdiv (r.TOV : ℚ) (r.GP : ℚ)
  Except.ok {
    games_played := r.GP
    minutes := pyRound1 r.MIN
    ppg := pyRound1 ppg
    fg_pct := pyRound1 (r.FG_PCT * 100)
    fg3_pct := pyRound1 (r.FG3_PCT * 100)
    ft_pct := pyRound1 (r.FT_PCT * 100)
    plus_minus := pyRound1 r.PLUS_MINUS
    total_points := r.PTS
    assists := pyRound1 ast
    rebounds := pyRound1 reb
    steals := pyRound1 stl
    blocks := pyRound1 blk
    turnovers := pyRound1 tov }

/-- The value returned by get_career_clutch_stats: either the stats
dictionary or a dictionary with an error key. -/
inductive PyDict where
  | stats (s : Stats)
  | errorDict (msg : String)
  deriving Repr, DecidableEq

/-- The season queried first (line 48 of src/app.py). -/
def current_season : String := "2023-24"

/-- The fixed historical fallback season (line 68 of src/app.py). -/
def fallback_season : String := "1976-77"

/-- The try-block body of get_career_clutch_stats (lines 47-91): fetch the
current season; if the result set is empty fetch the fallback season; if
still empty return the no-data error dictionary; otherwise extract stats
from the first row. The fetch collaborator and the divisions may raise. -/
def getBody (fetch : String → Except PyErr (List ClutchTotals)) :
    Except PyErr PyDict := do
  let cs ← fetch current_season
  let cs2 ← if cs.isEmpty then fetch fallback_season else Except.ok cs
  match cs2 with
  | [] => Except.ok (PyDict.errorDict "No clutch stats found")
  | r :: _ => do
      let s ← extractStats r
      Except.ok (PyDict.stats s)

/-- get_career_clutch_stats (lines 43-93): the body wrapped in try/except;
any exception is converted to a dictionary with str(e) under the error
key. The fetch collaborator stands for the ClutchPlayerStats endpoint
applied to a season string with the other arguments fixed. -/
def getCareerClutchStats (fetch : String → Except PyErr (List ClutchTotals)) :
    PyDict :=
  match getBody fetch with
  | Except.ok d => d
  | Except.error e => PyDict.errorDict (errString e)

/-- The outcome of running extraction on one concrete record, with the
try/except applied: used to describe which record the function settles on. -/
def processRecord (r : ClutchTotals) : PyDict :=
  match extractStats r with
  | Except.ok s => PyDict.stats s
  | Except.error e => PyDict.errorDict (errString e)

/-- One entry of the list returned by players.find_players_by_full_name. -/
structure PlayerEntry where
  id : ℤ
  full_name : String
  deriving Repr, DecidableEq

/-- get_player_id (lines 35-41): None when the lookup list is empty,
otherwise the id of the first entry. The lookup collaborator stands for
players.find_players_by_full_name. -/
def get_player_id (find_players : String → List PlayerEntry)
    (player_name : String) : Option ℤ :=
  match find_players player_name with
  | [] => none
  | p :: _ => some p.id

/-- ppg_diff (line 168): absolute difference of the two ppg values. -/
def ppg_diff (a b : ℚ) : ℚ := |a - b|

/-- better_scorer (line 169): player1 when its ppg is strictly greater,
otherwise player2. -/
def better_scorer (player1 player2 : String) (a b : ℚ) : String :=
  if a > b then player1 else player2

/-- plus_minus_diff (line 171): absolute difference of the plus-minus
values. -/
def plus_minus_diff (a b : ℚ) : ℚ := |a - b|

/-- better_impact (line 172): player1 when its plus-minus is strictly
greater, otherwise player2. -/
def better_impact (player1 player2 : String) (a b : ℚ) : String :=
  if a > b then player1 else player2

/-- What the comparison page renders after both per-player calls return. -/
inductive CompareOutcome where
  | displayed (s1 s2 : Stats)
  | errorStop (msg : String)
  deriving Repr, DecidableEq

/-- The error-handling step of the page (lines 121-124): when either result
dictionary carries an error key, show the error message and stop before any
summary is rendered; the message uses the first player error when present,
else the second. Otherwise both summaries are displayed. -/
def compare_flow (p1_stats p2_stats : PyDict) : CompareOutcome :=
  match p1_stats, p2_stats with
  | PyDict.errorDict m, _ =>
      CompareOutcome.errorStop ("Error fetching stats: " ++ m)
  | PyDict.stats _, PyDict.errorDict m =>
      CompareOutcome.errorStop ("Error fetching stats: " ++ m)
  | PyDict.stats s1, PyDict.stats s2 => CompareOutcome.displayed s1 s2

/-- True exactly when the outcome shows the two player summaries. -/
def showsSummary : CompareOutcome → Bool
  | CompareOutcome.displayed _ _ => true
  | CompareOutcome.errorStop _ => false

/-- Running the transform step twice on the same input record. -/
def runTransformTwice (r : ClutchTotals) :
    Except PyErr Stats × Except PyErr Stats :=
  (extractStats r, extractStats r)

/-- When GP is nonzero no division raises and extraction returns the full
stats dictionary. -/
theorem extractStats_ok (r : ClutchTotals) (h : (r.GP : ℚ) ≠ 0) :
    extractStats r = Except.ok {
      games_played := r.GP
      minutes := pyRound1 r.MIN
      ppg := pyRound1 ((r.PTS : ℚ) / (r.GP : ℚ))
      fg_pct := pyRound1 (r.FG_PCT * 100)
      fg3_pct := pyRound1 (r.FG3_PCT * 100)
      ft_pct := pyRound1 (r.FT_PCT * 100)
      plus_minus := pyRound1 r.PLUS_MINUS
      total_points := r.PTS
      assists := pyRound1 ((r.AST : ℚ) / (r.GP : ℚ))
      rebounds := pyRound1 ((r.REB : ℚ) / (r.GP : ℚ))
      steals := pyRound1 ((r.STL : ℚ) / (r.GP : ℚ))
      blocks := pyRound1 ((r.BLK : ℚ) / (r.GP : ℚ))
      turnovers := pyRound1 ((r.TOV : ℚ) / (r.GP : ℚ)) } := by
  simp [extractStats, fdiv, h, Bind.bind, Except.bind]

/-- When GP is zero the first division raises ZeroDivisionError. -/
theorem extractStats_zeroGP (r : ClutchTotals) (h : (r.GP : ℚ) = 0) :
    extractStats r = Except.error PyErr.zeroDivisionError := by
  simp [extractStats, fdiv, h, Bind.bind, Except.bind]

/-- When the primary season fetch returns a non-empty frame, the function
settles on its first row, for any behaviour of the fetch elsewhere. -/
theorem getStats_primary (fetch : String → Except PyErr (List ClutchTotals))
    (r : ClutchTotals) (rest : List ClutchTotals)
    (h : fetch current_season = Except.ok (r :: rest)) :
    getCareerClutchStats fetch = processRecord r := by
  simp only [getCareerClutchStats, getBody, h, Bind.bind, Except.bind,
    List.isEmpty, processRecord]
  cases hx : extractStats r <;> simp [hx, errString]

/-- When the primary season fetch is empty and the fallback returns a
non-empty frame, the function settles on the first fallback row. -/
theorem getStats_fallback (fetch : String → Except PyErr (List ClutchTotals))
    (r : ClutchTotals) (rest : List ClutchTotals)
    (h1 : fetch current_season = Except.ok [])
    (h2 : fetch fallback_season = Except.ok (r :: rest)) :
    getCareerClutchStats fetch = processRecord r := by
  simp only [getCareerClutchStats, getBody, h1, h2, Bind.bind, Except.bind,
    List.isEmpty, processRecord]
  cases hx : extractStats r <;> simp [hx, errString]

/-- When both fetches are empty the no-data error dictionary is returned. -/
theorem getStats_noData (fetch : String → Except PyErr (List ClutchTotals))
    (h1 : fetch current_season = Except.ok [])
    (h2 : fetch fallback_season = Except.ok []) :
    getCareerClutchStats fetch = PyDict.errorDict "No clutch stats found" := by
  simp [getCareerClutchStats, getBody, h1, h2, Bind.bind, Except.bind]

/-- When the primary fetch raises, the exception is caught and converted. -/
theorem getStats_fetchErr (fetch : String → Except PyErr (List ClutchTotals))
    (e : PyErr) (h : fetch current_season = Except.error e) :
    getCareerClutchStats fetch = PyDict.errorDict (errString e) := by
  simp [getCareerClutchStats, getBody, h, Bind.bind, Except.bind]

def rSample : ClutchTotals :=
  { GP := 2, MIN := 10, PTS := 30, FG_PCT := 1/2, FG3_PCT := 1/3,
    FT_PCT := 3/4, PLUS_MINUS := 5, AST := 4, REB := 6, STL := 2,
    BLK := 1, TOV := 3 }

/-- A totals record with GP = 0 and nonzero totals: the input that makes
every per-game division a division by zero. -/
def rZeroGP : ClutchTotals :=
  { GP := 0, MIN := 7, PTS := 12, FG_PCT := 1/2, FG3_PCT := 1/3,
    FT_PCT := 3/4, PLUS_MINUS := 5, AST := 4, REB := 6, STL := 2,
    BLK := 1, TOV := 3 }

/-- A totals record whose MIN total (100) differs from its per-game value
(100 / 10 = 10), separating the two readings of the minutes field. -/
def rMinutes : ClutchTotals :=
  { GP := 10, MIN := 100, PTS := 200, FG_PCT := 1/2, FG3_PCT := 1/3,
    FT_PCT := 3/4, PLUS_MINUS := 5, AST := 40, REB := 60, STL := 20,
    BLK := 10, TOV := 30 }

/-- A concrete stats dictionary, used to instantiate comparison inputs. -/
def sSample : Stats :=
  { games_played := 2, minutes := 10, ppg := 15, fg_pct := 50,
    fg3_pct := 333/10, ft_pct := 75, plus_minus := 5, total_points := 30,
    assists := 2, rebounds := 3, steals := 1, blocks := 1/2,
    turnovers := 3/2 }

/-- A fetch returning an empty result set for every season. -/
def fetchAllEmpty : String → Except PyErr (List ClutchTotals) :=
  fun _ => Except.ok []

/-- A fetch that is empty for the current season but has a record for the
fallback season. -/
def fetchFallbackOnly : String → Except PyErr (List ClutchTotals) :=
  fun s => if s = fallback_season then Except.ok [rSample] else Except.ok []

/-- A fetch returning the sample record for every season. -/
def fetchPrimaryHit : String → Except PyErr (List ClutchTotals) :=
  fun _ => Except.ok [rSample]

/-- A fetch that raises a transport error with a fixed message. -/
def fetchRaises : String → Except PyErr (List ClutchTotals) :=
  fun _ => Except.error (PyErr.apiError "HTTPSConnectionPool timeout")

/-- A lookup with no matching players. -/
def findNone : String → List PlayerEntry := fun _ => []

/-- A lookup returning two matches for every queried name. -/
def findTwo : String → List PlayerEntry :=
  fun _ => [{ id := 2544, full_name := "LeBron James" },
            { id := 20000, full_name := "LeBron James Jr" }]

/-- Claim C1: for every non-empty clutch totals record with GP > 0, the
server-side aggregation returns per-game rates equal to the corresponding
total divided by GP rounded to one decimal place, shooting percentages
equal to the source fraction times 100 rounded to one decimal place, and
plus-minus equal to PLUS_MINUS rounded to one decimal place. -/
theorem c1_server_side_rates
    (fetch : String → Except PyErr (List ClutchTotals))
    (r : ClutchTotals) (rest : List ClutchTotals)
    (hf : fetch current_season = Except.ok (r :: rest))
    (hgp : 0 < r.GP) :
    ∃ s, getCareerClutchStats fetch = PyDict.stats s ∧
      s.ppg = pyRound1 ((r.PTS : ℚ) / (r.GP : ℚ)) ∧
      s.assists = pyRound1 ((r.AST : ℚ) / (r.GP : ℚ)) ∧
      s.rebounds = pyRound1 ((r.REB : ℚ) / (r.GP : ℚ)) ∧
      s.steals = pyRound1 ((r.STL : ℚ) / (r.GP : ℚ)) ∧
      s.blocks = pyRound1 ((r.BLK : ℚ) / (r.GP : ℚ)) ∧
      s.turnovers = pyRound1 ((r.TOV : ℚ) / (r.GP : ℚ)) ∧
      s.fg_pct = pyRound1 (r.FG_PCT * 100) ∧
      s.fg3_pct = pyRound1 (r.FG3_PCT * 100) ∧
      s.ft_pct = pyRound1 (r.FT_PCT * 100) ∧
      s.plus_minus = pyRound1 r.PLUS_MINUS := by
  have hq : (r.GP : ℚ) ≠ 0 := by
    exact_mod_cast hgp.ne'
  have h1 : getCareerClutchStats fetch = PyDict.stats {
      games_played := r.GP
      minutes := pyRound1 r.MIN
      ppg := pyRound1 ((r.PTS : ℚ) / (r.GP : ℚ))
      fg_pct := pyRound1 (r.FG_PCT * 100)
      fg3_pct := pyRound1 (r.FG3_PCT * 100)
      ft_pct := pyRound1 (r.FT_PCT * 100)
      plus_minus := pyRound1 r.PLUS_MINUS
      total_points := r.PTS
      assists := pyRound1 ((r.AST : ℚ) / (r.GP : ℚ))
      rebounds := pyRound1 ((r.REB : ℚ) / (r.GP : ℚ))
      steals := pyRound1 ((r.STL : ℚ) / (r.GP : ℚ))
      blocks := pyRound1 ((r.BLK : ℚ) / (r.GP : ℚ))
      turnovers := pyRound1 ((r.TOV : ℚ) / (r.GP : ℚ)) } := by
    rw [getStats_primary fetch r rest hf, processRecord, extractStats_ok r hq]
  exact ⟨_, h1, rfl, rfl, rfl, rfl, rfl, rfl, rfl, rfl, rfl, rfl⟩

/-- Claim C1 witness at the sample record. -/
theorem c1_witness :
    ∃ s, getCareerClutchStats fetchPrimaryHit = PyDict.stats s ∧
      s.ppg = pyRound1 ((rSample.PTS : ℚ) / (rSample.GP : ℚ)) ∧
      s.assists = pyRound1 ((rSample.AST : ℚ) / (rSample.GP : ℚ)) ∧
      s.rebounds = pyRound1 ((rSample.REB : ℚ) / (rSample.GP : ℚ)) ∧
      s.steals = pyRound1 ((rSample.STL : ℚ) / (rSample.GP : ℚ)) ∧
      s.blocks = pyRound1 ((rSample.BLK : ℚ) / (rSample.GP : ℚ)) ∧
      s.turnovers = pyRound1 ((rSample.TOV : ℚ) / (rSample.GP : ℚ)) ∧
      s.fg_pct = pyRound1 (rSample.FG_PCT * 100) ∧
      s.fg3_pct = pyRound1 (rSample.FG3_PCT * 100) ∧
      s.ft_pct = pyRound1 (rSample.FT_PCT * 100) ∧
      s.plus_minus = pyRound1 rSample.PLUS_MINUS :=
  c1_server_side_rates fetchPrimaryHit rSample [] rfl (by decide)

/-- Claim C2: an empty primary season result triggers exactly one retry
against the fixed fallback season 1976-77; only when the fallback is also
empty does the call fail with the no-data dictionary, and a non-empty
primary result is settled from its first record for every behaviour of the
fetch on other seasons. -/
theorem c2_season_fallback
    (fetch : String → Except PyErr (List ClutchTotals))
    (r : ClutchTotals) (rest : List ClutchTotals) :
    (fetch current_season = Except.ok [] ∧
       fetch fallback_season = Except.ok [] →
       getCareerClutchStats fetch = PyDict.errorDict "No clutch stats found") ∧
    (fetch current_season = Except.ok [] ∧
       fetch fallback_season = Except.ok (r :: rest) →
       getCareerClutchStats fetch = processRecord r) ∧
    (fetch current_season = Except.ok (r :: rest) →
       getCareerClutchStats fetch = processRecord r) :=
  ⟨fun h => getStats_noData fetch h.1 h.2,
   fun h => getStats_fallback fetch r rest h.1 h.2,
   fun h => getStats_primary fetch r rest h⟩

/-- Claim C2 witness: the three branches at concrete fetches. -/
theorem c2_witness :
    getCareerClutchStats fetchAllEmpty =
      PyDict.errorDict "No clutch stats found" ∧
    getCareerClutchStats fetchFallbackOnly = processRecord rSample ∧
    getCareerClutchStats fetchPrimaryHit = processRecord rSample :=
  ⟨(c2_season_fallback fetchAllEmpty rSample []).1 ⟨rfl, rfl⟩,
   (c2_season_fallback fetchFallbackOnly rSample []).2.1
     ⟨by simp [fetchFallbackOnly, current_season, fallback_season],
      by simp [fetchFallbackOnly]⟩,
   (c2_season_fallback fetchPrimaryHit rSample []).2.2 rfl⟩

/-- Claim C3 counterexample: on a non-empty totals record with GP = 0 the
aggregation returns an error dictionary (the caught ZeroDivisionError),
not a summary with the affected fields defaulting to 0. -/
theorem c3_counterexample :
    getCareerClutchStats (fun _ => Except.ok [rZeroGP]) =
      PyDict.errorDict "float division by zero" := by decide

/-- Claim C3 amended: a non-empty totals record with GP = 0 makes the first
per-game division raise ZeroDivisionError, which the try/except converts
into the error dictionary with message float division by zero; no exception
escapes, but no field defaults to 0. -/
theorem c3_zero_gp_errors
    (fetch : String → Except PyErr (List ClutchTotals))
    (r : ClutchTotals) (rest : List ClutchTotals)
    (hf : fetch current_season = Except.ok (r :: rest))
    (hgp : r.GP = 0) :
    getCareerClutchStats fetch = PyDict.errorDict "float division by zero" := by
  have hq : (r.GP : ℚ) = 0 := by exact_mod_cast congrArg (Int.cast : ℤ → ℚ) hgp
  rw [getStats_primary fetch r rest hf, processRecord, extractStats_zeroGP r hq]
  rfl

/-- Claim C3 witness at the zero-GP record. -/
theorem c3_witness :
    getCareerClutchStats (fun _ => Except.ok [rZeroGP, rSample]) =
      PyDict.errorDict "float division by zero" :=
  c3_zero_gp_errors (fun _ => Except.ok [rZeroGP, rSample]) rZeroGP [rSample]
    rfl (by decide)

/-- Claim C4 counterexample: a transport error whose message equals the
fixed no-data literal produces exactly the same returned value as the
no-data condition, so the two cases are not distinguishable from the
returned value. -/
theorem c4_counterexample :
    getCareerClutchStats
        (fun _ => Except.error (PyErr.apiError "No clutch stats found")) =
      getCareerClutchStats fetchAllEmpty := by decide

/-- Claim C4 amended: both failures are signalled through the same
error-dictionary shape; the no-data case carries the fixed message and a
transport/lookup exception carries its str(e), so the caller can tell
them apart only when the exception message differs from the fixed
literal. -/
theorem c4_error_shapes
    (fetch : String → Except PyErr (List ClutchTotals)) :
    (fetch current_season = Except.ok [] ∧
       fetch fallback_season = Except.ok [] →
       getCareerClutchStats fetch = PyDict.errorDict "No clutch stats found") ∧
    (∀ e, fetch current_season = Except.error e →
       getCareerClutchStats fetch = PyDict.errorDict (errString e)) :=
  ⟨fun h => getStats_noData fetch h.1 h.2,
   fun e he => getStats_fetchErr fetch e he⟩

/-- Claim C4 witness: the two error shapes at concrete fetches. -/
theorem c4_witness :
    getCareerClutchStats fetchAllEmpty =
      PyDict.errorDict "No clutch stats found" ∧
    getCareerClutchStats fetchRaises =
      PyDict.errorDict "HTTPSConnectionPool timeout" :=
  ⟨(c4_error_shapes fetchAllEmpty).1 ⟨rfl, rfl⟩,
   (c4_error_shapes fetchRaises).2 (PyErr.apiError "HTTPSConnectionPool timeout") rfl⟩

/-- Claim C5: the comparison labels the first player better scorer
(respectively better impact) exactly when its ppg (respectively
plus-minus) is strictly greater, labels the second player on exact
equality, and reports the absolute difference of the two values. -/
theorem c5_comparison_tiebreak (n1 n2 : String) (hne : n1 ≠ n2)
    (a b c d : ℚ) :
    (better_scorer n1 n2 a b = n1 ↔ a > b) ∧
    (a = b → better_scorer n1 n2 a b = n2) ∧
    (better_impact n1 n2 c d = n1 ↔ c > d) ∧
    (c = d → better_impact n1 n2 c d = n2) ∧
    ppg_diff a b = |a - b| ∧
    plus_minus_diff c d = |c - d| := by
  refine ⟨?_, ?_, ?_, ?_, rfl, rfl⟩
  · by_cases hab : a > b
    · simp [better_scorer, hab]
    · simp [better_scorer, hab]
      exact fun h => absurd h.symm hne
  · intro h
    simp [better_scorer, h]
  · by_cases hcd : c > d
    · simp [better_impact, hcd]
    · simp [better_impact, hcd]
      exact fun h => absurd h.symm hne
  · intro h
    simp [better_impact, h]

/-- Claim C5 witness at two distinct names, tied ppg and distinct
plus-minus. -/
theorem c5_witness :
    (better_scorer "LeBron James" "Kobe Bryant" 15 15 = "LeBron James" ↔
       (15 : ℚ) > 15) ∧
    ((15 : ℚ) = 15 →
       better_scorer "LeBron James" "Kobe Bryant" 15 15 = "Kobe Bryant") ∧
    (better_impact "LeBron James" "Kobe Bryant" 3 1 = "LeBron James" ↔
       (3 : ℚ) > 1) ∧
    ((3 : ℚ) = 1 →
       better_impact "LeBron James" "Kobe Bryant" 3 1 = "Kobe Bryant") ∧
    ppg_diff 15 15 = |(15 : ℚ) - 15| ∧
    plus_minus_diff 3 1 = |(3 : ℚ) - 1| :=
  c5_comparison_tiebreak "LeBron James" "Kobe Bryant" (by decide) 15 15 3 1

/-- Claim C6: the code stores the MIN total rounded to one decimal, not
divided by GP, although the page labels the field as average clutch
minutes; at GP = 10, MIN = 100 the stored value is 100 while the per-game
average the claim describes is 10. -/
theorem c6_minutes_total_not_average :
    ∃ s, extractStats rMinutes = Except.ok s ∧
      s.minutes = 100 ∧
      pyRound1 (rMinutes.MIN / (rMinutes.GP : ℚ)) = 10 ∧
      s.minutes ≠ pyRound1 (rMinutes.MIN / (rMinutes.GP : ℚ)) := by
  refine ⟨_, extractStats_ok rMinutes (by norm_num [rMinutes]), ?_, ?_, ?_⟩
  · decide
  · decide
  · decide

/-- Claim C7: when either player result carries an error key the whole
comparison stops with the error message and no summary is displayed for
either player. -/
theorem c7_error_blocks_comparison (p1 p2 : PyDict)
    (h : (∃ m, p1 = PyDict.errorDict m) ∨ (∃ m, p2 = PyDict.errorDict m)) :
    showsSummary (compare_flow p1 p2) = false ∧
    ∃ m, compare_flow p1 p2 = CompareOutcome.errorStop m := by
  cases p1 with
  | errorDict m =>
    cases p2 with
    | stats s2 => exact ⟨rfl, _, rfl⟩
    | errorDict m2 => exact ⟨rfl, _, rfl⟩
  | stats s1 =>
    cases p2 with
    | errorDict m => exact ⟨rfl, _, rfl⟩
    | stats s2 =>
      rcases h with ⟨m, hm⟩ | ⟨m, hm⟩ <;> exact absurd hm (by simp)

/-- Claim C7 witness: a no-data error for the first player blocks the
comparison with a healthy second player. -/
theorem c7_witness :
    showsSummary
        (compare_flow (PyDict.errorDict "No clutch stats found")
          (PyDict.stats sSample)) = false ∧
    ∃ m, compare_flow (PyDict.errorDict "No clutch stats found")
          (PyDict.stats sSample) = CompareOutcome.errorStop m :=
  c7_error_blocks_comparison (PyDict.errorDict "No clutch stats found")
    (PyDict.stats sSample) (Or.inl ⟨"No clutch stats found", rfl⟩)

/-- Claim C8: the transform step is a deterministic pure function of its
input record; running it twice on the same record yields identical
results. -/
theorem c8_transform_deterministic (r : ClutchTotals) :
    (runTransformTwice r).1 = (runTransformTwice r).2 := rfl

/-- Claim C9: get_career_clutch_stats is total; every exception raised in
the body is caught and converted to an error dictionary with the str of
the exception, and every returned value is either a stats dictionary or an
error dictionary. -/
theorem c9_total_function
    (fetch : String → Except PyErr (List ClutchTotals)) :
    ((∃ s, getCareerClutchStats fetch = PyDict.stats s) ∨
       (∃ m, getCareerClutchStats fetch = PyDict.errorDict m)) ∧
    (∀ e, getBody fetch = Except.error e →
       getCareerClutchStats fetch = PyDict.errorDict (errString e)) := by
  constructor
  · cases h : getCareerClutchStats fetch with
    | stats s => exact Or.inl ⟨s, rfl⟩
    | errorDict m => exact Or.inr ⟨m, rfl⟩
  · intro e he
    simp [getCareerClutchStats, he]

/-- Claim C9 witness: a raising fetch is converted to an error
dictionary carrying the exception message. -/
theorem c9_witness :
    getCareerClutchStats fetchRaises =
      PyDict.errorDict "HTTPSConnectionPool timeout" :=
  (c9_total_function fetchRaises).2
    (PyErr.apiError "HTTPSConnectionPool timeout") rfl

/-- Claim C10: get_player_id returns none when the lookup result is empty
and the id of the first match otherwise, silently resolving ambiguous
names to the first match. -/
theorem c10_first_match (find_players : String → List PlayerEntry)
    (player_name : String) :
    (find_players player_name = [] →
       get_player_id find_players player_name = none) ∧
    (∀ p rest, find_players player_name = p :: rest →
       get_player_id find_players player_name = some p.id) := by
  constructor
  · intro h
    simp [get_player_id, h]
  · intro p rest h
    simp [get_player_id, h]

/-- Claim C10 witness: empty lookup gives none; a two-element lookup gives
the first id. -/
theorem c10_witness :
    get_player_id findNone "Nobody" = none ∧
    get_player_id findTwo "LeBron James" = some 2544 :=
  ⟨(c10_first_match findNone "Nobody").1 rfl,
   (c10_first_match findTwo "LeBron James").2
     { id := 2544, full_name := "LeBron James" }
     [{ id := 20000, full_name := "LeBron James Jr" }] rfl⟩

end NBAClutch
